import Mathlib

/-!
# Verification of the youtube-archiver job-orchestration core

Shallow embedding of `src/backend/src/youtube_archiver/` (server.py,
downloader.py, custom_types.py).  Filesystem paths are modelled as lists of
path segments (`Path`); a directory tree is modelled as the list of existing
directories.  Each definition mirrors one Python function of the source and
keeps its name where Lean allows.
-/

namespace YoutubeArchiver

/-- A filesystem path as a list of segments.  An absolute path is a list of
segments under the root; e.g. `/data/T` is `["data", "T"]`. -/
abbrev FsPath := List String

/-- `listStarts pat l`: `pat` is an initial segment of `l` (structural, so it
evaluates inside the kernel). -/
def listStarts : List Char → List Char → Bool
  | [], _ => true
  | _ :: _, [] => false
  | a :: as, b :: bs => a == b && listStarts as bs

/-- Python `name.endswith(pat)` / a `glob("*<pat>")` match for file name
`s`. -/
def strEndsWith (s pat : String) : Bool :=
  listStarts pat.toList.reverse s.toList.reverse

/-- The published realtime update messages (custom_types.py).  The downloader
(downloader.py) fills the `status` field with plain strings
(`"downloading"`, `"downloaded"`, `"completed"`, `"error"`), while the server
handlers (server.py) use the `UpdateStatusCode` enum members; the suffix
`Dl` marks the downloader's string-status messages and `Srv` the server's
enum-status messages, since `update_publisher` treats the two differently. -/
inductive Upd where
  /-- process_hook: status `"downloading"` (a string), filename, byte counts. -/
  | downloadingU (reqId : Option String) (filename : String)
      (downloadedBytes : Nat) (totalBytes : Option Nat)
  /-- process_hook: status `"downloaded"` (a string). -/
  | downloadedU (reqId : Option String) (filename : String)
  /-- download (downloader.py:227-237): status `"completed"` (a string);
  carries no `key` and no `path` field. -/
  | completedDl (reqId : Option String) (prettyName : String)
      (infoFile : FsPath) (videoFile audioFile : Option FsPath)
  /-- download_future_handler (server.py:119-130): status
  `UpdateStatusCode.COMPLETED`; `key` holds whatever `DownloadResult.key`
  holds and `path` is `info_file.parent`. -/
  | completedSrv (reqId : Option String) (prettyName : String) (key : FsPath)
      (path : FsPath) (infoFile : FsPath) (videoFile audioFile : Option FsPath)
  /-- download (downloader.py:216-221): status `"error"` (a string). -/
  | errorDl (reqId : Option String) (msg : String)
  /-- download_future_handler (server.py:131-137): status
  `UpdateStatusCode.ERROR`. -/
  | errorSrv (reqId : Option String) (msg : String)
  /-- delete_handler (server.py:214): status `UpdateStatusCode.DELETED`,
  carrying the raw request key string. -/
  | deletedU (key : String)
  deriving DecidableEq, Repr

/-- An update is terminal when it reports completion or error (spec section 3:
`Completed` and `Error` are the terminal tags), in either the downloader's
string-status form or the server's enum-status form. -/
def Upd.isTerminal : Upd → Bool
  | .completedDl _ _ _ _ _ => true
  | .completedSrv _ _ _ _ _ _ _ => true
  | .errorDl _ _ => true
  | .errorSrv _ _ => true
  | _ => false

/-- Number of terminal updates in a published trace. -/
def countTerminal (l : List Upd) : Nat :=
  (l.filter Upd.isTerminal).length

/-- Once a terminal update appears in the trace, every later update is also
terminal (i.e. no non-terminal update follows any terminal one). -/
def tailTerminalOnly : List Upd → Bool
  | [] => true
  | u :: rest => if u.isTerminal then rest.all Upd.isTerminal else tailTerminalOnly rest

/-- A raw youtube-dl progress callback dictionary, as read by process_hook
(downloader.py:94-116): a `status` string plus the fields process_hook
extracts. -/
structure RawHook where
  status : String
  filename : String
  downloadedBytes : Nat
  totalBytes : Option Nat
  deriving DecidableEq, Repr

/-- process_hook (downloader.py:94-116): translates one raw youtube-dl
callback into a queue message; statuses other than `"downloading"` and
`"finished"` publish nothing. -/
def process_hook (reqId : Option String) (u : RawHook) : Option Upd :=
  if u.status = "downloading" then
    some (.downloadingU reqId u.filename u.downloadedBytes u.totalBytes)
  else if u.status = "finished" then
    some (.downloadedU reqId u.filename)
  else
    none

/-- One entry of the info file's `requested_formats` list, with the two
fields process_output_dir reads (downloader.py:83-85). -/
structure RequestedFormat where
  vcodec : String
  ext : String
  deriving DecidableEq, Repr

/-- The parsed info-file metadata: the `title` (downloader.py:59) and the
`requested_formats` list (downloader.py:83); `none` models a dictionary
without the `requested_formats` key (a `KeyError` on access). -/
structure Metadata where
  title : String
  requested_formats : Option (List RequestedFormat)
  deriving DecidableEq, Repr

/-- The engine's scratch directory: the produced file names in directory
(glob) order, plus the metadata parsed from the info file. -/
structure Scratch where
  files : List String
  meta : Metadata
  deriving DecidableEq, Repr

/-- Model of the external `youtube_dl.utils.sanitize_filename` (a third-party
dependency, out of scope per spec section 1): characters illegal in a path
segment are replaced, so the result is a single path segment. -/
def sanitize_filename (s : String) : String :=
  String.mk (s.toList.map fun c =>
    if c = '/' ∨ c = '\\' ∨ c = '|' ∨ c = '?' ∨ c = '*' ∨ c = '<' ∨ c = '>' ∨ c = ':' ∨ c = '"'
    then '_' else c)

/-- Exceptions raised inside a worker job, as observed by
download_future_handler.  `alreadyDownloaded` is modelled from the spec:
server.py:18 imports `AlreadyDownloaded` from downloader.py and
server.py:131 reads its `key` attribute, but the class definition itself is
not present under src/; per spec sections 4.4 and 7 it is the failure raised
when `download_root/<key>/` already exists. -/
inductive DLErr where
  | indexError (what : String)
  | keyError (what : String)
  | alreadyDownloaded (key : String)
  | valueError (msg : String)
  | engineFailure (msg : String)
  deriving DecidableEq, Repr

/-- Python `str(exc)` for the modelled exceptions, used when an exception's
message is published in an error update. -/
def DLErr.msg : DLErr → String
  | .indexError _ => "list index out of range"
  | .keyError what => what
  | .alreadyDownloaded key => key
  | .valueError m => m
  | .engineFailure m => m

/-- DownloadResult (custom_types.py:22-29).  The annotation there declares
`key : str` (the storage directory name), but process_output_dir
(downloader.py:91) constructs `DownloadResult(pretty_name, output_dir, ...)`,
so at runtime the `key` field holds the full output directory `Path`; the
field is therefore modelled with the type of the value the code actually
stores. -/
structure DownloadResult where
  pretty_name : String
  key : FsPath
  info_file : FsPath
  video_file : Option FsPath
  audio_file : Option FsPath
  deriving DecidableEq, Repr

deriving instance DecidableEq for Except

/-- Outcome of process_output_dir: the result or the raised exception,
together with the directory tree afterwards and the list of scratch file
names that were renamed (moved) out of the scratch directory. -/
structure ProcOut where
  res : Except DLErr DownloadResult
  fs : List FsPath
  moved : List String
  deriving DecidableEq, Repr

/-- Leftmost shortest-named element: the head of Python's
`sorted(xs, key=lambda x: len(x.name))` (a stable sort, so ties keep the
earlier glob entry), as used at downloader.py:79. -/
def shortestName : List String → Option String
  | [] => none
  | x :: xs =>
    match shortestName xs with
    | none => some x
    | some y => some (if y.length < x.length then y else x)

/-- The fallback video search of process_output_dir
(downloader.py:83-86): walk `requested_formats` in order, and at the first
format whose `vcodec` is not `"none"` take the first produced file with that
format's extension (an IndexError if none exists); if no format has a video
codec the loop falls through and no video file is selected. -/
def findVideoByFormat (files : List String) :
    List RequestedFormat → Except DLErr (Option String)
  | [] => .ok none
  | f :: rest =>
    if f.vcodec ≠ "none" then
      match (files.filter (fun n => strEndsWith n ("." ++ f.ext))).head? with
      | some v => .ok (some v)
      | none => .error (.indexError "video format glob")
    else
      findVideoByFormat files rest

/-- Video selection of process_output_dir (downloader.py:75-86): prefer a
`.mkv` (the shortest name when several exist, downloader.py:79); on
IndexError (no `.mkv`) fall back to the `requested_formats` search; reading
a missing `requested_formats` key raises KeyError. -/
def selectVideoFile (files : List String) (meta : Metadata) :
    Except DLErr (Option String) :=
  match shortestName (files.filter (fun n => strEndsWith n ".mkv")) with
  | some m => .ok (some m)
  | none =>
    match meta.requested_formats with
    | some fmts => findVideoByFormat files fmts
    | none => .error (.keyError "requested_formats")

/-- process_output_dir (downloader.py:33-91) over the path model.
`fs` is the set of existing directories; `output_dir` is the destination root
(the server's download_dir).  Steps, in source order: take the first `.json`
(IndexError when none); read the title; sanitize it; when
`make_title_subdir`, `mkdir` the `<output_dir>/<sanitized>` subdirectory
(already-downloaded failure when it exists — see `DLErr.alreadyDownloaded`);
rename the info file; when `extract_audio`, take the first `.mp3` (IndexError
when none) and rename it; when `download_video`, run the video selection and
rename the pick; finally build the DownloadResult — passing `output_dir` in
the `key` position, as the source does. -/
def process_output_dir (output_dir : FsPath)
    (make_title_subdir download_video extract_audio : Bool)
    (fs : List FsPath) (scratch : Scratch) : ProcOut :=
  match (scratch.files.filter (fun n => strEndsWith n ".json")).head? with
  | none => ⟨.error (.indexError "json glob"), fs, []⟩
  | some infoName =>
    let pretty := scratch.meta.title
    let sanitized := sanitize_filename pretty
    if make_title_subdir ∧ (output_dir ++ [sanitized]) ∈ fs then
      ⟨.error (.alreadyDownloaded sanitized), fs, []⟩
    else
      let outDir := if make_title_subdir then output_dir ++ [sanitized] else output_dir
      let fs1 := if make_title_subdir then outDir :: fs else fs
      let infoDest := outDir ++ [sanitized ++ ".json"]
      let moved1 := [infoName]
      let audioStep : Except DLErr (Option String) :=
        if extract_audio then
          match (scratch.files.filter (fun n => strEndsWith n ".mp3")).head? with
          | some a => .ok (some a)
          | none => .error (.indexError "mp3 glob")
        else .ok none
      match audioStep with
      | .error e => ⟨.error e, fs1, moved1⟩
      | .ok audioName =>
        let moved2 := moved1 ++ audioName.toList
        let videoStep : Except DLErr (Option String) :=
          if download_video then selectVideoFile scratch.files scratch.meta
          else .ok none
        match videoStep with
        | .error e => ⟨.error e, fs1, moved2⟩
        | .ok videoName =>
          ⟨.ok
            { pretty_name := pretty
              key := outDir
              info_file := infoDest
              video_file := videoName.map (fun v => outDir ++ [v])
              audio_file := audioName.map (fun a => outDir ++ [a]) },
            fs1, moved2 ++ videoName.toList⟩

/-- The worker-side behavior of the external engine for one run of
`YoutubeDL.extract_info` (out of scope per spec section 1): the raw progress
callbacks it fires, then either an exception message or the scratch
directory it leaves behind (including the `info.json` that download itself
writes at downloader.py:212-213). -/
structure EngineRun where
  hooks : List RawHook
  outcome : Except String Scratch
  deriving DecidableEq, Repr

/-- download (downloader.py:150-239) as called by the server with an updates
queue: returns the list of updates it publishes (in order) and the outcome.
Source behavior mirrored: the `output_dir.is_dir()` check raises ValueError
before the try block, so no hooks fire and no error update is published;
inside the try block, hooks publish via process_hook; an engine exception or
a process_output_dir failure publishes a string-status error update and
re-raises; success publishes a string-status completed update (which carries
no key and no path field). -/
def download (output_dir : FsPath) (make_title_subdir download_video extract_audio : Bool)
    (reqId : Option String) (fs : List FsPath) (engine : EngineRun) :
    List Upd × ProcOut :=
  if output_dir ∉ fs then
    ([], ⟨.error (.valueError "output_dir must be a directory"), fs, []⟩)
  else
    let hookUpds := engine.hooks.filterMap (process_hook reqId)
    match engine.outcome with
    | .error m =>
      (hookUpds ++ [.errorDl reqId m], ⟨.error (.engineFailure m), fs, []⟩)
    | .ok scratch =>
      let p := process_output_dir output_dir make_title_subdir download_video extract_audio fs scratch
      match p.res with
      | .error e => (hookUpds ++ [.errorDl reqId e.msg], p)
      | .ok r =>
        (hookUpds ++ [.completedDl reqId r.pretty_name r.info_file r.video_file r.audio_file], p)

/-- download_future_handler (server.py:107-138): inspects the finished
future and publishes the server-side terminal update — a COMPLETED update
with `key := download_result.key` and `path := download_result.info_file.parent`
on success, an ERROR update quoting the key on AlreadyDownloaded, and an
ERROR update with `str(exc)` on any other exception. -/
def download_future_handler (reqId : String) (res : Except DLErr DownloadResult) : Upd :=
  match res with
  | .ok r =>
    .completedSrv (some reqId) r.pretty_name r.key r.info_file.dropLast
      r.info_file r.video_file r.audio_file
  | .error (.alreadyDownloaded k) =>
    .errorSrv (some reqId) ("\"" ++ k ++ "\" already downloaded")
  | .error e => .errorSrv (some reqId) e.msg

/-- The full sequence of updates published to the queue for one admitted job:
everything download publishes on the worker, followed by the one update the
future callback publishes (server.py:183). -/
def jobTrace (output_dir : FsPath) (make_title_subdir download_video extract_audio : Bool)
    (reqId : String) (fs : List FsPath) (engine : EngineRun) : List Upd :=
  let d := download output_dir make_title_subdir download_video extract_audio
    (some reqId) fs engine
  d.1 ++ [download_future_handler reqId d.2.res]

/-! ## HTTP submission handler (server.py:141-185) -/

/-- A JSON value of the shapes the handlers inspect. -/
inductive JVal where
  | s (v : String)
  | b (v : Bool)
  | i (v : Int)
  | null
  deriving DecidableEq, Repr

/-- Python `isinstance(x, str)`. -/
def JVal.isStr : JVal → Bool
  | .s _ => true
  | _ => false

/-- Python `isinstance(x, bool)`. -/
def JVal.isBool : JVal → Bool
  | .b _ => true
  | _ => false

/-- Python `isinstance(x, int)`: `bool` is a subclass of `int` in Python, so
booleans also pass this check. -/
def JVal.isInt : JVal → Bool
  | .i _ => true
  | .b _ => true
  | _ => false

/-- Python `1 <= x <= 5`: defined for ints (and bools, which compare as 0/1);
`none` models the TypeError raised on other values. -/
def JVal.inRange15 : JVal → Option Bool
  | .i n => some (decide (1 ≤ n ∧ n ≤ 5))
  | .b v => some v
  | _ => none

/-- The JSON body of a POST /download request: each field is present with
some JSON value or absent. -/
structure SubmitBody where
  url : Option JVal
  download_video : Option JVal
  extract_audio : Option JVal
  audio_quality : Option JVal
  quality_quality : Option JVal
  deriving DecidableEq, Repr

/-- Result of download_handler: a 400, a 500 (an uncaught TypeError), or a
202 admitting the job to the worker pool with the arguments passed to
download (server.py:169-181) — note the admitted audio quality is the raw
`req_params.get("audio_quality", 3)` value. -/
inductive SubmitResp where
  | badRequest (msg : String)
  | internalError
  | accepted (url : String) (download_video extract_audio : Bool) (audio_quality : JVal)
  deriving DecidableEq, Repr

/-- download_handler (server.py:141-185) validation and admission.  The
checks, in source order: `url` a string; `download_video` a boolean;
`extract_audio` a boolean; then (server.py:164)
`not isinstance(req_params.get("audio_quality", 3), int) or
not 1 <= req_params.get("quality_quality", 3) <= 5` — the range check reads
the (misspelled) `quality_quality` field, not `audio_quality`.  When all
checks pass the job is admitted with the raw `audio_quality` value. -/
def download_handler (req : SubmitBody) : SubmitResp :=
  match req.url with
  | some (.s u) =>
    match req.download_video with
    | some (.b dv) =>
      match req.extract_audio with
      | some (.b ea) =>
        let aq := req.audio_quality.getD (.i 3)
        if ¬ aq.isInt then .badRequest "\"audio_quality\" must be between 1-5"
        else
          match (req.quality_quality.getD (.i 3)).inRange15 with
          | none => .internalError
          | some false => .badRequest "\"audio_quality\" must be between 1-5"
          | some true => .accepted u dv ea aq
      | _ => .badRequest "\"extract_audio\" must be specified and be a boolean"
    | _ => .badRequest "\"download_video\" must be specified and be a boolean"
  | _ => .badRequest "\"url\" must be specified and be a string"

/-! ## Deletion handler (server.py:188-216) -/

/-- `root` is an initial segment of `p` (including `root` itself):
Python's `p.relative_to(root)` succeeds exactly in this case. -/
def withinRoot : List String → List String → Bool
  | [], _ => true
  | _ :: _, [] => false
  | a :: as, b :: bs => a == b && withinRoot as bs

/-- Split a string at `/` separators (the structural counterpart of
`str.split("/")`). -/
def splitSlashAux : List Char → List Char → List String
  | [], acc => [String.mk acc.reverse]
  | c :: cs, acc =>
    if c = '/' then String.mk acc.reverse :: splitSlashAux cs []
    else splitSlashAux cs (c :: acc)

/-- Split a string into its `/`-separated pieces. -/
def splitSlash (s : String) : List String :=
  splitSlashAux s.toList []

/-- Python `pathlib.Path(key)`: split into segments; the constructor drops
empty segments and single-dot segments and records whether the path is
absolute (a leading `/`). -/
def parseKey (k : String) : Bool × List String :=
  (listStarts ['/'] k.toList, (splitSlash k).filter (fun seg => seg ≠ "" ∧ seg ≠ "."))

/-- Python `Path.resolve()` on an absolute segment list (symlink-free model):
`..` pops the last segment (and is dropped at the filesystem root). -/
def resolvePath (segs : List String) : List String :=
  segs.foldl (fun acc seg => if seg = ".." then acc.dropLast else acc ++ [seg]) []

/-- `(download_dir / Path(key)).resolve()` (server.py:203): joining with an
absolute key replaces the base, as `pathlib` does; `download_dir` is assumed
canonical (absolute, no dot components), as the server receives it. -/
def resolveKey (root : FsPath) (k : String) : FsPath :=
  let p := parseKey k
  resolvePath ((if p.1 then [] else root) ++ p.2)

/-- The HTTP response of delete_handler. -/
inductive DeleteResp where
  | ok
  | badRequest (msg : String)
  deriving DecidableEq, Repr

/-- Outcome of delete_handler: the response, the directory tree afterwards,
and the updates it published. -/
structure DeleteOut where
  resp : DeleteResp
  fs : List FsPath
  upds : List Upd
  deriving DecidableEq, Repr

/-- delete_handler (server.py:188-216): require a string `key`; resolve
`download_dir / key`; reject with 400 when `resolved.relative_to(download_dir)`
fails (the resolved path does not lie within the root); 400 when the
resolved path is not an existing directory; otherwise `shutil.rmtree` the
resolved directory (removing it and every directory below it), publish a
DELETED update carrying the raw key string, and return 200. -/
def delete_handler (root : FsPath) (fs : List FsPath) (key : Option JVal) : DeleteOut :=
  match key with
  | some (.s k) =>
    let resolved := resolveKey root k
    if withinRoot root resolved then
      if resolved ∈ fs then
        ⟨.ok, fs.filter (fun d => ¬ withinRoot resolved d), [.deletedU k]⟩
      else
        ⟨.badRequest "key does not exist", fs, []⟩
    else
      ⟨.badRequest "key specified is forbidden", fs, []⟩
  | _ => ⟨.badRequest "\"key\" must be specified and be a string", fs, []⟩

/-! ## Update publisher (server.py:23-58) -/

/-- Translate a root-relative path for the client:
`(download_prefix / p.relative_to(download_dir)).as_posix()` — `none` models
the ValueError when `p` is not under the root. -/
def relUnder (root pfx p : FsPath) : Option FsPath :=
  if withinRoot root p then some (pfx ++ p.drop root.length) else none

/-- One iteration of update_publisher (server.py:32-56) on a dequeued
update; `none` means the loop dies on this update (an uncaught exception
other than CancelledError).  Enum-status updates: DOWNLOADING/DOWNLOADED
squash `filename` to its final name; COMPLETED rewrites `video_file`,
`audio_file`, `info_file` and `path` to `<download_prefix>/<root-relative>`
but leaves `key` untouched; ERROR and DELETED pass through.  The
downloader's string-status updates match none of the enum comparisons and
then crash the loop at `update["status"].name` (a str has no `.name`
attribute), so nothing is sent for them and the loop stops. -/
def update_publisher_step (pfx root : FsPath) : Upd → Option Upd
  | .downloadingU _ _ _ _ => none
  | .downloadedU _ _ => none
  | .completedDl _ _ _ _ _ => none
  | .errorDl _ _ => none
  | .completedSrv r pn key path info vf af =>
    match relUnder root pfx info, relUnder root pfx path with
    | some info2, some path2 =>
      match vf.map (relUnder root pfx), af.map (relUnder root pfx) with
      | some none, _ => none
      | _, some none => none
      | vf2, af2 => some (.completedSrv r pn key path2 info2 (vf2.bind id) (af2.bind id))
    | _, _ => none
  | .errorSrv r m => some (.errorSrv r m)
  | .deletedU k => some (.deletedU k)

/-- The updates actually sent to observers for a queue of published updates:
the publisher loop transforms and sends each in order until an update
crashes it, after which nothing further is ever sent. -/
def publisherRun (pfx root : FsPath) : List Upd → List Upd
  | [] => []
  | u :: rest =>
    match update_publisher_step pfx root u with
    | some sent => sent :: publisherRun pfx root rest
    | none => []

/-! ## Helper lemmas -/

theorem process_hook_not_terminal (r : Option String) (u : RawHook) (v : Upd)
    (h : process_hook r u = some v) : v.isTerminal = false := by
  unfold process_hook at h
  split at h
  · injection h with h; subst h; rfl
  · split at h
    · injection h with h; subst h; rfl
    · exact Option.noConfusion h

theorem hook_upds_not_terminal (r : Option String) (hooks : List RawHook) (v : Upd)
    (h : v ∈ hooks.filterMap (process_hook r)) : v.isTerminal = false := by
  rcases List.mem_filterMap.mp h with ⟨u, _, hu⟩
  exact process_hook_not_terminal r u v hu

theorem countTerminal_append (a b : List Upd) :
    countTerminal (a ++ b) = countTerminal a + countTerminal b := by
  simp [countTerminal, List.filter_append]

theorem countTerminal_eq_zero (l : List Upd) (h : ∀ u ∈ l, u.isTerminal = false) :
    countTerminal l = 0 := by
  simp only [countTerminal, List.length_eq_zero, List.filter_eq_nil_iff]
  intro u hu
  simp [h u hu]

theorem countTerminal_le_length (l : List Upd) : countTerminal l ≤ l.length :=
  List.length_filter_le _ l

theorem tailTerminalOnly_append (l rest : List Upd)
    (h : ∀ u ∈ l, u.isTerminal = false) :
    tailTerminalOnly (l ++ rest) = tailTerminalOnly rest := by
  induction l with
  | nil => rfl
  | cons x xs ih =>
    have hx := h x (List.mem_cons_self x xs)
    simp only [List.cons_append, tailTerminalOnly, hx, if_false, Bool.false_eq_true]
    exact ih fun u hu => h u (List.mem_cons_of_mem _ hu)

theorem download_future_handler_terminal (reqId : String)
    (res : Except DLErr DownloadResult) :
    (download_future_handler reqId res).isTerminal = true := by
  rcases res with e | r
  · rcases e with _ | _ | _ | _ | _ <;> rfl
  · rfl

/-- Shape of the worker-side publish trace: whatever the engine does,
download publishes a list of non-terminal hook updates followed by at most
one terminal update. -/
theorem download_trace_shape (output_dir : FsPath)
    (mts dv ea : Bool) (r : Option String) (fs : List FsPath) (engine : EngineRun) :
    ∃ hu t, (download output_dir mts dv ea r fs engine).1 = hu ++ t ∧
      (∀ u ∈ hu, u.isTerminal = false) ∧ t.length ≤ 1 ∧
      ∀ u ∈ t, u.isTerminal = true := by
  unfold download
  split
  · exact ⟨[], [], rfl, by simp, by simp, by simp⟩
  · cases hout : engine.outcome with
    | error m =>
      exact ⟨engine.hooks.filterMap (process_hook r), [.errorDl r m], rfl,
        fun u hu => hook_upds_not_terminal r engine.hooks u hu, by simp,
        by simp [Upd.isTerminal]⟩
    | ok scratch =>
      cases hres : (process_output_dir output_dir mts dv ea fs scratch).res with
      | error e =>
        exact ⟨engine.hooks.filterMap (process_hook r), [.errorDl r e.msg],
          by simp [hres],
          fun u hu => hook_upds_not_terminal r engine.hooks u hu, by simp,
          by simp [Upd.isTerminal]⟩
      | ok dr =>
        exact ⟨engine.hooks.filterMap (process_hook r),
          [.completedDl r dr.pretty_name dr.info_file dr.video_file dr.audio_file],
          by simp [hres],
          fun u hu => hook_upds_not_terminal r engine.hooks u hu, by simp,
          by simp [Upd.isTerminal]⟩

/-! ## Claim C1 -/

/-- C1 (counterexample): the claim "at most one terminal Update is ever
published per request_id" is false: for a job that succeeds, both the worker
(download, downloader.py:227-237) and the future callback
(download_future_handler, server.py:119-130) publish a terminal completed
update with the same request id, so this concrete job publishes two terminal
updates. -/
theorem C1_counterexample :
    countTerminal (jobTrace ["data"] true false false "r" [["data"]]
      ⟨[], .ok ⟨["info.json"], ⟨"T", some []⟩⟩⟩) = 2 := by decide

/-- C1 (amended): for every job, at most two terminal updates are published
for its request_id — the worker's own terminal update and the future
callback's duplicate — and no non-terminal update is ever published after a
terminal one. -/
theorem C1_amended (output_dir : FsPath) (mts dv ea : Bool) (reqId : String)
    (fs : List FsPath) (engine : EngineRun) :
    countTerminal (jobTrace output_dir mts dv ea reqId fs engine) ≤ 2 ∧
    tailTerminalOnly (jobTrace output_dir mts dv ea reqId fs engine) = true := by
  obtain ⟨hu, t, heq, hhu, htlen, hterm⟩ :=
    download_trace_shape output_dir mts dv ea (some reqId) fs engine
  have hsrv := download_future_handler_terminal reqId
    (download output_dir mts dv ea (some reqId) fs engine).2.res
  show countTerminal ((download output_dir mts dv ea (some reqId) fs engine).1 ++
      [download_future_handler reqId
        (download output_dir mts dv ea (some reqId) fs engine).2.res]) ≤ 2 ∧
    tailTerminalOnly ((download output_dir mts dv ea (some reqId) fs engine).1 ++
      [download_future_handler reqId
        (download output_dir mts dv ea (some reqId) fs engine).2.res]) = true
  rw [heq]
  constructor
  · rw [List.append_assoc, countTerminal_append, countTerminal_eq_zero hu hhu]
    have h1 := countTerminal_le_length t
    have h2 := countTerminal_le_length
      [download_future_handler reqId (download output_dir mts dv ea (some reqId) fs engine).2.res]
    rw [countTerminal_append]
    simp only [List.length_cons, List.length_nil] at h2
    omega
  · rw [List.append_assoc, tailTerminalOnly_append hu _ hhu]
    cases t with
    | nil =>
      simp [tailTerminalOnly, hsrv]
    | cons d t2 =>
      cases t2 with
      | nil =>
        have hd := hterm d (List.mem_cons_self d [])
        simp [tailTerminalOnly, hd, hsrv]
      | cons d2 t3 => simp at htlen

/-! ## Claim C2 -/

/-- C2: for every delete request whose key resolves (canonically) to a path
that does not lie within download_root, delete_handler rejects with the
400 "forbidden" response, leaves the filesystem unchanged, and publishes no
update.  ("Descendant" is read as the code's guard reads it: the canonical
path must lie within the root subtree; the root itself is the subject of
C10.) -/
theorem C2_traversal_rejected (root : FsPath) (fs : List FsPath) (k : String)
    (h : withinRoot root (resolveKey root k) = false) :
    delete_handler root fs (some (.s k)) =
      ⟨.badRequest "key specified is forbidden", fs, []⟩ := by
  unfold delete_handler
  simp [h]

/-- C2 (witness): the spec's own example, key `"../../etc"` against root
`/data`, resolves outside the root and is rejected with no deletion and no
update. -/
theorem C2_traversal_rejected_witness :
    withinRoot ["data"] (resolveKey ["data"] "../../etc") = false ∧
    delete_handler ["data"] [["data"], ["data", "V"]] (some (.s "../../etc")) =
      ⟨.badRequest "key specified is forbidden", [["data"], ["data", "V"]], []⟩ :=
  ⟨by decide, C2_traversal_rejected ["data"] [["data"], ["data", "V"]] "../../etc" (by decide)⟩

/-! ## Claim C3 -/

/-- C3 (code bug): a submission with audio requested and
`audio_quality = 7` (outside [1,5]) is NOT rejected: download_handler admits
it to the worker pool, passing the out-of-range quality 7 to download.  The
range check at server.py:164 reads the misspelled `quality_quality` field
(which defaults to 3) instead of `audio_quality`, so only the type of
`audio_quality` is ever checked. -/
theorem C3_out_of_range_quality_admitted :
    download_handler ⟨some (.s "u"), some (.b false), some (.b true), some (.i 7), none⟩ =
      .accepted "u" false true (.i 7) := rfl

/-! ## Claim C4 -/

/-- C4 (code bug): a well-typed submission with `download_video = false` and
`extract_audio = false` is NOT rejected: download_handler contains no
at-least-one-output check (cli.py:64-66 enforces exactly this rule for the
CLI entry point, but server.py:141-185 never does), so the request is
answered 202 and the job is admitted to the worker pool. -/
theorem C4_nothing_requested_admitted :
    download_handler ⟨some (.s "u"), some (.b false), some (.b false), none, none⟩ =
      .accepted "u" false false (.i 3) := rfl

/-! ## Claim C5 -/

/-- C5: when the sanitized-title subdirectory already exists under
download_root, the job fails as the (spec-modelled) already-downloaded
condition: process_output_dir raises before moving anything, the existing
directory tree is untouched, and the future callback surfaces a terminal
ERROR update whose message quotes the key and says "already downloaded". -/
theorem C5_already_downloaded (root : FsPath) (fs : List FsPath) (scratch : Scratch)
    (dv ea : Bool) (reqId : String) (hooks : List RawHook)
    (hroot : root ∈ fs)
    (hjson : scratch.files.filter (fun n => strEndsWith n ".json") ≠ [])
    (hdup : (root ++ [sanitize_filename scratch.meta.title]) ∈ fs) :
    (download root true dv ea (some reqId) fs ⟨hooks, .ok scratch⟩).2 =
      ⟨.error (.alreadyDownloaded (sanitize_filename scratch.meta.title)), fs, []⟩ ∧
    download_future_handler reqId
        (download root true dv ea (some reqId) fs ⟨hooks, .ok scratch⟩).2.res =
      .errorSrv (some reqId)
        ("\"" ++ sanitize_filename scratch.meta.title ++ "\" already downloaded") := by
  have hproc : process_output_dir root true dv ea fs scratch =
      ⟨.error (.alreadyDownloaded (sanitize_filename scratch.meta.title)), fs, []⟩ := by
    unfold process_output_dir
    cases hj : (scratch.files.filter (fun n => strEndsWith n ".json")).head? with
    | none =>
      exact absurd (List.head?_eq_none_iff.mp hj) hjson
    | some j =>
      simp [hdup]
  have hdl : (download root true dv ea (some reqId) fs ⟨hooks, .ok scratch⟩).2 =
      ⟨.error (.alreadyDownloaded (sanitize_filename scratch.meta.title)), fs, []⟩ := by
    unfold download
    rw [if_neg (by simp [hroot])]
    simp [hproc]
  refine ⟨hdl, ?_⟩
  rw [hdl]
  rfl

/-- C5 (witness): a concrete job whose target directory `/data/T` already
exists fails as already-downloaded without touching the filesystem, and its
terminal update is the quoted already-downloaded ERROR. -/
theorem C5_already_downloaded_witness :
    (download ["data"] true false false (some "r") [["data"], ["data", "T"]]
        ⟨[], .ok ⟨["info.json"], ⟨"T", some []⟩⟩⟩).2 =
      ⟨.error (.alreadyDownloaded "T"), [["data"], ["data", "T"]], []⟩ ∧
    download_future_handler "r"
        (download ["data"] true false false (some "r") [["data"], ["data", "T"]]
          ⟨[], .ok ⟨["info.json"], ⟨"T", some []⟩⟩⟩).2.res =
      .errorSrv (some "r") "\"T\" already downloaded" :=
  C5_already_downloaded ["data"] [["data"], ["data", "T"]]
    ⟨["info.json"], ⟨"T", some []⟩⟩ false false "r" []
    (by decide) (by decide) (by decide)

/-! ## Claim C10 -/

/-- C10: the traversal guard accepts the root itself: the key `"."` resolves
to download_root, `relative_to` succeeds, and the handler recursively
deletes the entire download root, returns 200, and publishes a Deleted
update for the key `"."`. -/
theorem C10_delete_root_accepted :
    delete_handler ["data"] [["data"], ["data", "V"], ["other"]] (some (.s ".")) =
      ⟨.ok, [["other"]], [.deletedU "."]⟩ := by decide

/-! ## Claim C6 -/

/-- C6 (counterexample): the claim "more than one .json file fails with a
ResolutionError and moves no files" is false: with two `.json` files in the
scratch directory, process_output_dir does not fail — it silently uses the
first glob entry (downloader.py:55 takes `[0]` without checking the count)
and moves it out. -/
theorem C6_counterexample :
    process_output_dir ["data"] true false false [["data"]]
        ⟨["a.json", "b.json"], ⟨"T", some []⟩⟩ =
      ⟨.ok ⟨"T", ["data", "T"], ["data", "T", "T.json"], none, none⟩,
        [["data", "T"], ["data"]], ["a.json"]⟩ := by decide

/-- C6 (amended): for every scratch directory containing zero `.json` files,
artifact resolution fails (the `[0]` index on the empty glob raises) and
moves no files out of the scratch directory; when more than one `.json` is
present the code does not fail but uses the first one found. -/
theorem C6_amended (output_dir : FsPath) (mts dv ea : Bool) (fs : List FsPath)
    (scratch : Scratch)
    (h : scratch.files.filter (fun n => strEndsWith n ".json") = []) :
    process_output_dir output_dir mts dv ea fs scratch =
      ⟨.error (.indexError "json glob"), fs, []⟩ := by
  unfold process_output_dir
  simp [h]

/-- C6 (witness): a scratch directory holding only a video file fails with
the index error and nothing is moved. -/
theorem C6_amended_witness :
    process_output_dir ["data"] true true false [["data"]]
        ⟨["v.mkv"], ⟨"T", some []⟩⟩ =
      ⟨.error (.indexError "json glob"), [["data"]], []⟩ :=
  C6_amended ["data"] true true false [["data"]] ⟨["v.mkv"], ⟨"T", some []⟩⟩ (by decide)

/-! ## Claim C7 -/

theorem shortestName_spec (l : List String) (h : l ≠ []) :
    ∃ m, shortestName l = some m ∧ m ∈ l ∧ ∀ x ∈ l, m.length ≤ x.length := by
  induction l with
  | nil => exact absurd rfl h
  | cons a as ih =>
    cases has : as with
    | nil =>
      exact ⟨a, rfl, List.mem_cons_self a [], by simp⟩
    | cons b bs =>
      obtain ⟨m, hm, hmem, hmin⟩ := ih (by simp [has])
      rw [← has] at *
      by_cases hlt : m.length < a.length
      · refine ⟨m, ?_, List.mem_cons_of_mem a hmem, ?_⟩
        · unfold shortestName
          rw [has] at hm ⊢
          rw [hm]
          simp [hlt]
        · intro x hx
          rcases List.mem_cons.mp hx with hx | hx
          · subst hx; exact Nat.le_of_lt hlt
          · exact hmin x hx
      · refine ⟨a, ?_, List.mem_cons_self a as, ?_⟩
        · unfold shortestName
          rw [has] at hm ⊢
          rw [hm]
          simp [hlt]
        · intro x hx
          rcases List.mem_cons.mp hx with hx | hx
          · subst hx; exact Nat.le_refl _
          · exact Nat.le_trans (Nat.le_of_not_lt hlt) (hmin x hx)

theorem findVideoByFormat_all_none (files : List String) (fmts : List RequestedFormat)
    (h : ∀ f ∈ fmts, f.vcodec = "none") :
    findVideoByFormat files fmts = .ok none := by
  induction fmts with
  | nil => rfl
  | cons f rest ih =>
    have hf := h f (List.mem_cons_self f rest)
    unfold findVideoByFormat
    simp [hf]
    exact ih fun g hg => h g (List.mem_cons_of_mem _ hg)

theorem findVideoByFormat_found (files : List String) (fmts : List RequestedFormat)
    (f : RequestedFormat) (v : String) (vs : List String)
    (hfind : fmts.find? (fun g => g.vcodec != "none") = some f)
    (hfiles : files.filter (fun n => strEndsWith n ("." ++ f.ext)) = v :: vs) :
    findVideoByFormat files fmts = .ok (some v) := by
  induction fmts with
  | nil => simp [List.find?] at hfind
  | cons g rest ih =>
    by_cases hg : g.vcodec = "none"
    · have hb : (g.vcodec != "none") = false := by simp [hg]
      rw [List.find?_cons, hb] at hfind
      unfold findVideoByFormat
      rw [if_neg (by simp [hg])]
      exact ih hfind
    · have hb : (g.vcodec != "none") = true := by simp [hg]
      rw [List.find?_cons, hb] at hfind
      have hgf : g = f := by simpa using hfind
      subst hgf
      unfold findVideoByFormat
      rw [if_pos hg, hfiles]
      rfl

/-- C7 (counterexample): the claim "fail with a ResolutionError if video was
requested but no candidate file is found" is false: with video requested, no
`.mkv` present, and no metadata format reporting a video codec, resolution
completes successfully with no video file instead of failing
(downloader.py:83-88 leaves `video_file = None` when the loop finds
nothing). -/
theorem C7_counterexample :
    process_output_dir ["data"] true true false [["data"]]
        ⟨["i.json", "a.m4a"], ⟨"T", some [⟨"none", "m4a"⟩]⟩⟩ =
      ⟨.ok ⟨"T", ["data", "T"], ["data", "T", "T.json"], none, none⟩,
        [["data", "T"], ["data"]], ["i.json"]⟩ := by decide

/-- C7 (amended): the video selection prefers a `.mkv` file, choosing one of
minimal filename length when several exist; when no `.mkv` exists it falls
back to the first metadata format reporting a video codec and takes the
first produced file with that format's extension; and when no format
reports a video codec it selects no video file without error (rather than
failing as the original claim stated). -/
theorem C7_amended (files : List String) (meta : Metadata) :
    (files.filter (fun n => strEndsWith n ".mkv") ≠ [] →
      ∃ m, selectVideoFile files meta = .ok (some m) ∧
        m ∈ files.filter (fun n => strEndsWith n ".mkv") ∧
        ∀ x ∈ files.filter (fun n => strEndsWith n ".mkv"), m.length ≤ x.length) ∧
    (∀ fmts, files.filter (fun n => strEndsWith n ".mkv") = [] →
      meta.requested_formats = some fmts →
      (∀ f ∈ fmts, f.vcodec = "none") →
      selectVideoFile files meta = .ok none) ∧
    (∀ fmts f v vs, files.filter (fun n => strEndsWith n ".mkv") = [] →
      meta.requested_formats = some fmts →
      fmts.find? (fun g => g.vcodec != "none") = some f →
      files.filter (fun n => strEndsWith n ("." ++ f.ext)) = v :: vs →
      selectVideoFile files meta = .ok (some v)) := by
  refine ⟨?_, ?_, ?_⟩
  · intro hne
    obtain ⟨m, hm, hmem, hmin⟩ := shortestName_spec _ hne
    exact ⟨m, by unfold selectVideoFile; rw [hm], hmem, hmin⟩
  · intro fmts hmkv hfmts hall
    unfold selectVideoFile
    rw [hmkv]
    simp only [shortestName, hfmts]
    exact findVideoByFormat_all_none files fmts hall
  · intro fmts f v vs hmkv hfmts hfind hfiles
    unfold selectVideoFile
    rw [hmkv]
    simp only [shortestName, hfmts]
    exact findVideoByFormat_found files fmts f v vs hfind hfiles

/-- C7 (witness): two `.mkv` candidates — the shorter-named merged output is
selected over the longer per-format intermediate. -/
theorem C7_amended_witness :
    ∃ m, selectVideoFile ["T.f137.mkv", "T.mkv"] ⟨"T", none⟩ = .ok (some m) ∧
      m ∈ (["T.f137.mkv", "T.mkv"].filter (fun n => strEndsWith n ".mkv")) ∧
      ∀ x ∈ (["T.f137.mkv", "T.mkv"].filter (fun n => strEndsWith n ".mkv")),
        m.length ≤ x.length :=
  (C7_amended ["T.f137.mkv", "T.mkv"] ⟨"T", none⟩).1 (by decide)

/-! ## Claim C8 -/

/-- C8 (code bug): a path field leaves the process as an absolute filesystem
path: on a COMPLETED update the publisher rewrites `video_file`,
`audio_file`, `info_file` and `path` to `<download_prefix>/<relative>`
(server.py:41-52) but sends the `key` field untouched — and `key` holds the
absolute output directory (see C9) — so the sent update exposes
`/data/T` while its other fields were translated to `/downloads/...`. -/
theorem C8_completed_key_sent_absolute :
    update_publisher_step ["downloads"] ["data"]
        (.completedSrv (some "r") "T" ["data", "T"] ["data", "T"]
          ["data", "T", "T.json"] none none) =
      some (.completedSrv (some "r") "T" ["data", "T"] ["downloads", "T"]
        ["downloads", "T", "T.json"] none none) := by decide

/-! ## Claim C9 -/

/-- C9 (code bug): the claim "the key field of the returned DownloadResult is
the storage directory name: a single path segment" is false on the code:
process_output_dir (downloader.py:91) builds
`DownloadResult(pretty_name, output_dir, ...)`, so the NamedTuple's second
field `key` receives the full output directory path `/data/T` rather than
the sanitized single-segment name `"T"`. -/
theorem C9_key_holds_output_dir :
    (process_output_dir ["data"] true false false [["data"]]
        ⟨["info.json"], ⟨"T", some []⟩⟩).res =
      .ok ⟨"T", ["data", "T"], ["data", "T", "T.json"], none, none⟩ ∧
    (["data", "T"] : FsPath) ≠ [sanitize_filename "T"] := by decide

end YoutubeArchiver
